import Mathlib

/-!
Shallow embedding of `src/server.py`, a single-file HTTP backend for a
401(k) contribution demo.  The server persists one JSON document (the
settings file `data.json`), exposes `GET/POST /api/settings`,
`GET /api/summary`, `OPTIONS`, and serves static files otherwise.

Modelling conventions:
* Python floats (IEEE binary64) are the inductive `PyFloat`: `finite q`
  with `q : ℚ` the exact value of a representable double, plus `inf`,
  `neginf` and `nan`.  `float()` conversions round exactly as binary64
  (round to nearest, ties to even), overflow included.
* JSON values are the inductive `JsonVal`.  `json.loads` yields Python ints
  for integer literals (`.int`, arbitrary precision, exact) and Python
  floats for decimal/exponent literals and the NaN/Infinity extensions
  (`.float`).
* A parsed JSON object is an association list with distinct keys, the items
  of the Python dict produced by `json.loads`.
* The persistent state is `Option JsonVal`: `none` when `data.json` does not
  exist, `some j` when it holds the JSON document `j`.
* `json.loads` on a request body is modelled by passing the parse result
  directly (`Option JsonVal`, `none` when the body is not valid JSON);
  the body `"\x7b\x7d"` substituted for an empty body parses to the empty object.
* The filesystem under the static root is a partial map from resolved
  absolute paths (component lists) to file contents; symlinks are absent,
  so `Path.resolve()` is the lexical normalisation of `.` and `..`.
* A Python statement that raises an exception the handler does not catch
  (`data.get` on a non-dict body, the set-membership test on an unhashable
  contributionType, `float()` raising OverflowError on a huge int) makes
  the handler return `none`: the request gets no response.
-/

/-- A Python float: the exact rational value of a finite binary64 double, or
one of the special values. -/
inductive PyFloat where
  | finite (q : ℚ) : PyFloat
  | inf : PyFloat
  | neginf : PyFloat
  | nan : PyFloat
deriving DecidableEq

/-- Outcome of Python `float(x)`: a value, a TypeError/ValueError (both
caught by the POST handler), or an OverflowError (not caught). -/
inductive FloatResult where
  | ok (x : PyFloat) : FloatResult
  | valueError : FloatResult
  | overflowError : FloatResult
deriving DecidableEq

/-- JSON values as produced by `json.loads`.  Integer literals become Python
ints (`.int`), decimal/exponent literals and NaN/Infinity become Python
floats (`.float`).  Object fields are the items of the resulting dict,
hence carry distinct keys in order. -/
inductive JsonVal where
  | null : JsonVal
  | bool (b : Bool) : JsonVal
  | int (n : ℤ) : JsonVal
  | float (x : PyFloat) : JsonVal
  | str (s : String) : JsonVal
  | obj (fields : List (String × JsonVal)) : JsonVal

/-- Python dict lookup `d.get(key)` on the items list: first matching key
(keys are distinct in any dict, so first = only). Returns `none` (Python
`None`) when absent. -/
def lookupField : List (String × JsonVal) → String → Option JsonVal
  | [], _ => none
  | (k, v) :: rest, key => if k = key then some v else lookupField rest key

/-- Python dict assignment `d[k] = v`: replace in place when the key exists,
append otherwise. -/
def dictInsert (d : List (String × JsonVal)) (k : String) (v : JsonVal) :
    List (String × JsonVal) :=
  if (lookupField d k).isSome then
    d.map (fun kv => if kv.1 = k then (k, v) else kv)
  else d ++ [(k, v)]

/-- Python dict merge as in line 82 of server.py: the items of
the dict built by inserting all items of `a`, then all items of `b`
(later keys override earlier ones). -/
def pyMerge (a b : List (String × JsonVal)) : List (String × JsonVal) :=
  (a ++ b).foldl (fun d kv => dictInsert d kv.1 kv.2) []

/-- Decimal digits to a natural number. -/
def digitsToNat (ds : List Char) : Nat :=
  ds.foldl (fun n c => 10 * n + (c.toNat - 48)) 0

/-- Base-2 logarithm of a natural number, fuelled: the fuel bounds the
number of halvings, and `natLog2` passes `n` itself, which always
suffices, so the result is exactly the floor of log2 for `n ≥ 1`. -/
def natLog2Aux : Nat → Nat → Nat
  | 0, _ => 0
  | fuel + 1, n => if 2 ≤ n then natLog2Aux fuel (n / 2) + 1 else 0

/-- Floor of the base-2 logarithm (0 at 0). -/
def natLog2 (n : Nat) : Nat := natLog2Aux n n

/-- Powers of two, by structural recursion so they evaluate in the kernel. -/
def pow2n : ℕ → ℕ
  | 0 => 1
  | n + 1 => 2 * pow2n n

/-- Powers of ten, by structural recursion so they evaluate in the kernel. -/
def pow10n : ℕ → ℕ
  | 0 => 1
  | n + 1 => 10 * pow10n n

/-- Round the fraction a / b (b > 0) to the nearest integer, ties to even. -/
def rhe (a b : ℕ) : ℕ :=
  let f := a / b
  let r := a % b
  if 2 * r < b then f
  else if b < 2 * r then f + 1
  else if f % 2 = 0 then f else f + 1

/-- Floor of the base-2 logarithm of the positive fraction a / b. -/
def fracLog2 (a b : ℕ) : ℤ :=
  if b ≤ a then (natLog2 (a / b) : ℤ)
  else
    let k := natLog2 (b / a)
    if b ≤ a * pow2n k then -(k : ℤ) else -(k : ℤ) - 1

/-- Round the positive fraction num/den to binary64, round to nearest and
ties to even with the subnormal quantum clamp at 2^(-1074); `none` when the
rounded magnitude reaches 2^1024 (IEEE overflow).  The overflow test
compares logarithms: for m > 0, m < 2^t iff log2 m < t. -/
def roundPosFrac (num den : ℕ) : Option ℚ :=
  let e := fracLog2 num den
  let qe := max (e - 52) (-1074)
  let m := if 0 ≤ qe then rhe num (den * pow2n qe.toNat)
           else rhe (num * pow2n (-qe).toNat) den
  if m = 0 ∨ (natLog2 m : ℤ) < 1024 - qe then
    some (if 0 ≤ qe then ((m * pow2n qe.toNat : ℕ) : ℚ)
          else mkRat m (pow2n (-qe).toNat))
  else none

/-- Round a signed fraction (den > 0) to binary64; overflow gives the
infinity of that sign, as `float()` does on strings. -/
def roundFrac (num : ℤ) (den : ℕ) : PyFloat :=
  if num = 0 then .finite 0
  else if 0 < num then
    match roundPosFrac num.toNat den with
    | some v => .finite v
    | none => .inf
  else
    match roundPosFrac (-num).toNat den with
    | some v => .finite (-v)
    | none => .neginf

/-- Python `float(n)` on an int: round to the nearest binary64;
OverflowError when the rounded magnitude reaches 2^1024. -/
def floatOfInt (n : ℤ) : FloatResult :=
  match roundFrac n 1 with
  | .finite v => .ok (.finite v)
  | _ => .overflowError

/-- Digit-run continuation with PEP 515 grouping: collect further digits,
crossing an underscore only when a digit follows it directly. -/
def uDigitsAux : List Char → (List Char × List Char)
  | '_' :: c :: rest =>
    if c.isDigit then
      let p := uDigitsAux rest
      (c :: p.1, p.2)
    else ([], '_' :: c :: rest)
  | c :: rest =>
    if c.isDigit then
      let p := uDigitsAux rest
      (c :: p.1, p.2)
    else ([], c :: rest)
  | [] => ([], [])

/-- Leading digit group of a float literal: a digit first, then digits with
single underscores between them; returns the digits (underscores removed)
and the unconsumed rest. -/
def takeUDigits : List Char → (List Char × List Char)
  | c :: rest =>
    if c.isDigit then
      let p := uDigitsAux rest
      (c :: p.1, p.2)
    else ([], c :: rest)
  | [] => ([], [])

/-- Mantissa of a Python float literal: digits with an optional single
decimal point, at least one digit overall.  The value is returned as an
exact pair (numerator, fraction length), standing for num / 10 ^ len. -/
def parseUMantissa (cs : List Char) : Option ((ℕ × ℕ) × List Char) :=
  let p := takeUDigits cs
  match p.2 with
  | '.' :: r =>
    let pf := takeUDigits r
    if p.1 = [] ∧ pf.1 = [] then none
    else some ((digitsToNat (p.1 ++ pf.1), pf.1.length), pf.2)
  | _ => if p.1 = [] then none else some ((digitsToNat p.1, 0), p.2)

/-- Optional exponent part of a float literal, folded into the exact
fraction: a positive exponent scales the numerator, a negative one extends
the denominator.  The whole rest of the input must be consumed. -/
def parseUExponent (mk : ℕ × ℕ) (cs : List Char) : Option (ℕ × ℕ) :=
  match cs with
  | [] => some mk
  | e :: r =>
    if e = 'e' ∨ e = 'E' then
      let isNeg : Bool := match r with | '-' :: _ => true | _ => false
      let r2 := match r with | '-' :: t => t | '+' :: t => t | t => t
      let pd := takeUDigits r2
      if pd.1 = [] ∨ pd.2 ≠ [] then none
      else
        let x := digitsToNat pd.1
        if isNeg then some (mk.1, mk.2 + x) else some (mk.1 * pow10n x, mk.2)
    else none

/-- Characters lowercased, for the case-insensitive inf/nan spellings. -/
def lowerStr (cs : List Char) : List Char := cs.map Char.toLower

/-- Python `float(s)` on a string: optional surrounding whitespace, optional
sign, then inf/infinity/nan in any case, or a decimal literal with optional
exponent and PEP 515 underscores, rounded to binary64 (overflowing to the
infinities); `none` is ValueError. -/
def pyFloatString (s : String) : Option PyFloat :=
  let cs := ((s.toList.dropWhile Char.isWhitespace).reverse.dropWhile
    Char.isWhitespace).reverse
  let isNeg : Bool := match cs with | '-' :: _ => true | _ => false
  let cs2 := match cs with | '+' :: t => t | '-' :: t => t | t => t
  let low := lowerStr cs2
  if low = ['i', 'n', 'f'] ∨ low = ['i', 'n', 'f', 'i', 'n', 'i', 't', 'y'] then
    some (if isNeg then .neginf else .inf)
  else if low = ['n', 'a', 'n'] then some .nan
  else
    match parseUMantissa cs2 with
    | none => none
    | some p =>
      match parseUExponent p.1 p.2 with
      | none => none
      | some mk =>
        some (roundFrac (if isNeg then -(mk.1 : ℤ) else (mk.1 : ℤ)) (pow10n mk.2))

/-- Python `float(x)` on a JSON value: floats pass through (NaN and the
infinities included), ints round (OverflowError possible), `True`/`False`
convert to 1.0/0.0 (bool is an int subclass), strings are parsed, and
`None`, objects and arrays raise TypeError. -/
def pyFloat : JsonVal → FloatResult
  | .int n => floatOfInt n
  | .float x => .ok x
  | .bool b => .ok (.finite (if b then 1 else 0))
  | .str s =>
    match pyFloatString s with
    | some x => .ok x
    | none => .valueError
  | _ => .valueError

/-- Python `float(contribution_value)` where the value came from `d.get`:
an absent key gives Python `None`, a TypeError. -/
def pyFloatOf : Option JsonVal → FloatResult
  | none => .valueError
  | some j => pyFloat j

/-- IEEE comparison `x <= y`: false whenever either side is NaN. -/
def pyLe : PyFloat → PyFloat → Bool
  | .nan, _ => false
  | _, .nan => false
  | .neginf, _ => true
  | _, .neginf => false
  | _, .inf => true
  | .inf, _ => false
  | .finite a, .finite b => decide (a ≤ b)

/-- IEEE comparison `x < y`: false whenever either side is NaN. -/
def pyLt : PyFloat → PyFloat → Bool
  | .nan, _ => false
  | _, .nan => false
  | .neginf, .neginf => false
  | .neginf, _ => true
  | _, .neginf => false
  | .inf, _ => false
  | _, .inf => true
  | .finite a, .finite b => decide (a < b)

/-- Python `s.startswith(pre)`, computed on the character lists. -/
def strStartsWith (s pre : String) : Bool :=
  pre.toList.isPrefixOf s.toList

/-- Python `s.split(sep)` for a one-character separator, on character lists:
the (possibly empty) chunks between occurrences of the separator. -/
def splitChar (sep : Char) : List Char → List (List Char)
  | [] => [[]]
  | c :: rest =>
    if c = sep then [] :: splitChar sep rest
    else
      match splitChar sep rest with
      | [] => [[c]]
      | h :: t => (c :: h) :: t

/-- DEFAULT_SETTINGS from server.py lines 21-24 (7.0 is a float literal). -/
def DEFAULT_SETTINGS : JsonVal :=
  .obj [("contributionType", .str "percent"), ("contributionValue", .float (.finite 7))]

/-- MOCK_SUMMARY from server.py lines 26-37: integer literals are Python
ints, 4.0 is a float. -/
def MOCK_SUMMARY : List (String × JsonVal) :=
  [("employeeName", .str "Alex Johnson"),
   ("planType", .str "Traditional 401(k)"),
   ("annualSalary", .int 95000),
   ("payFrequency", .int 24),
   ("ytdContribution", .int 4100),
   ("ytdEmployerMatch", .int 1640),
   ("companyMatchPercent", .float (.finite 4)),
   ("age", .int 30),
   ("retirementAge", .int 65),
   ("estimatedBalanceAtRetirement", .int 685000)]

/-- ensure_data_file: create the data file with defaults if absent. -/
def ensure_data_file (st : Option JsonVal) : Option JsonVal :=
  match st with
  | some _ => st
  | none => some DEFAULT_SETTINGS

/-- read_settings: ensure the file exists, then return its JSON contents
together with the (possibly just-created) file state. -/
def read_settings (st : Option JsonVal) : JsonVal × Option JsonVal :=
  let st1 := ensure_data_file st
  (st1.getD JsonVal.null, st1)

/-- write_settings: overwrite the file wholesale with the given document. -/
def write_settings (settings : JsonVal) : Option JsonVal :=
  some settings

/-- Response bodies: a JSON payload, a fixed text body, or streamed file
contents. -/
inductive RespBody where
  | json (j : JsonVal) : RespBody
  | text (t : String) : RespBody
  | file (data : String) : RespBody

/-- An HTTP response: status code, Content-Type header, body.  The CORS
headers are attached identically to every response and are omitted. -/
structure Response where
  status : Nat
  contentType : String
  body : RespBody

/-- _send_json: serialise a payload with status (default Content-Type
application/json). -/
def sendJson (j : JsonVal) (status : Nat) : Response :=
  ⟨status, "application/json", .json j⟩

/-- An error payload as built inline in server.py. -/
def jsonError (msg : String) : JsonVal :=
  .obj [("error", .str msg)]

/-- The membership test `contribution_type not in ("percent","dollar")`,
negated: `some true` when the value is one of the two strings, `some false`
when it is any other hashable value (other strings, numbers, booleans,
Python None), and `none` when hashing the value raises TypeError (dicts are
unhashable), which the handler does not catch. -/
def typeAllowed : Option JsonVal → Option Bool
  | some (.obj _) => none
  | some (.str s) => some (s == "percent" || s == "dollar")
  | _ => some false

/-- Equality test `contribution_type == t`. -/
def isType (t : String) : Option JsonVal → Bool
  | some (.str s) => s == t
  | _ => false

/-- Shape of every settings document the server itself writes: the
contributionValue is always the converted Python float. -/
def settingsObj (ct : String) (v : PyFloat) : JsonVal :=
  .obj [("contributionType", .str ct), ("contributionValue", .float v)]

/-- do_POST, server.py lines 88-117.  `contentLength` is the Content-Length
header (0 when absent), `parsedBody` the result of `json.loads` on the raw
body (`none` = JSONDecodeError); a zero content length substitutes the empty
object before parsing.  Returns `none` when the handler raises: a non-dict
JSON body reaching `data.get`, a TypeError from hashing an unhashable
contributionType, or an uncaught OverflowError from `float()` on a huge
int. -/
def do_POST (st : Option JsonVal) (path : String) (contentLength : Nat)
    (parsedBody : Option JsonVal) : Option (Response × Option JsonVal) :=
  if strStartsWith path "/api/settings" then
    let dataOpt := if contentLength = 0 then some (JsonVal.obj []) else parsedBody
    match dataOpt with
    | none => some (sendJson (jsonError "Invalid JSON") 400, st)
    | some (.obj fields) =>
      let ct := lookupField fields "contributionType"
      let cv := lookupField fields "contributionValue"
      match typeAllowed ct with
      | none => none
      | some false =>
        some (sendJson (jsonError "contributionType must be \x27percent\x27 or \x27dollar\x27.") 400, st)
      | some true =>
        match pyFloatOf cv with
        | .overflowError => none
        | .valueError =>
          some (sendJson (jsonError "contributionValue must be numeric.") 400, st)
        | .ok v =>
          if isType "percent" ct ∧ ¬ (pyLe (.finite 0) v ∧ pyLe v (.finite 75)) then
            some (sendJson (jsonError "Percent contributions must be between 0 and 75.") 400, st)
          else if isType "dollar" ct ∧ pyLt v (.finite 0) then
            some (sendJson (jsonError "Dollar contributions must be positive.") 400, st)
          else
            let newSettings : JsonVal :=
              .obj [("contributionType", ct.getD .null), ("contributionValue", .float v)]
            some (sendJson newSettings 201, write_settings newSettings)
    | some _ => none
  else
    some (sendJson (jsonError "Unsupported endpoint") 404, st)

/-- Python `s.strip("/")`: remove slashes from both ends. -/
def pyStripSlash (s : String) : String :=
  String.mk (((s.toList.dropWhile (· = '/')).reverse.dropWhile (· = '/')).reverse)

/-- Path components of a relative path string: split on slashes, dropping the
empty components and single dots that `PurePath` collapses. -/
def splitPath (s : String) : List String :=
  ((splitChar '/' s.toList).map String.mk).filter (fun c => ¬ (c = "" ∨ c = "."))

/-- Lexical normalisation of `..` as performed by `Path.resolve()` on a
symlink-free filesystem: starting from the (already resolved, absolute)
components `acc`, append each component, a `..` dropping the last component
(staying at the root when there is none). -/
def resolveComps : List String → List String → List String
  | acc, [] => acc
  | acc, c :: rest =>
    if c = ".." then resolveComps acc.dropLast rest
    else resolveComps (acc ++ [c]) rest

/-- The absolute resolved target `(PUBLIC_DIR / path).resolve()` of a request
path: strip slashes, substitute `index.html` for the empty path, join to the
static root `pubDir` and normalise. -/
def resolvedPath (pubDir : List String) (reqPath : String) : List String :=
  let path0 := pyStripSlash reqPath
  let path := if path0 = "" then "index.html" else path0
  resolveComps pubDir (splitPath path)

/-- Python `Path.suffix` of a file name: the part from the last dot on, when
that dot is neither the first nor the last character; empty otherwise. -/
def pathSuffix (name : String) : String :=
  let cs := name.toList
  let j := cs.reverse.indexOf '.'
  if j ≥ cs.length then ""
  else
    let i := cs.length - 1 - j
    if 0 < i ∧ i < cs.length - 1 then String.mk (cs.drop i) else ""

/-- Content type by extension, server.py lines 132-139. -/
def contentTypeFor (suffix : String) : String :=
  if suffix = ".html" ∨ suffix = ".htm" then "text/html; charset=utf-8"
  else if suffix = ".css" then "text/css; charset=utf-8"
  else if suffix = ".js" then "application/javascript"
  else "application/octet-stream"

/-- serve_static, server.py lines 119-143.  `fs` maps resolved absolute paths
(as component lists) to the contents of the file there, `none` when no file
exists; `pubDir` is the resolved static root.  `relative_to` succeeds exactly
when the root components are a prefix of the resolved path. -/
def serve_static (pubDir : List String) (fs : List String → Option String)
    (reqPath : String) : Response :=
  let file_path := resolvedPath pubDir reqPath
  if pubDir.isPrefixOf file_path then
    match fs file_path with
    | none => ⟨404, "text/plain", .text "Not found"⟩
    | some data =>
      ⟨200, contentTypeFor (pathSuffix (file_path.getLastD "")), .file data⟩
  else
    ⟨403, "application/json", .text "Forbidden"⟩

/-- do_GET, server.py lines 76-86.  Returns `none` when the handler raises
(the summary merge by dict unpacking applied to a non-object settings
document). -/
def do_GET (pubDir : List String) (fs : List String → Option String)
    (path : String) (st : Option JsonVal) : Option (Response × Option JsonVal) :=
  if strStartsWith path "/api/settings" then
    let r := read_settings st
    some (sendJson r.1 200, r.2)
  else if strStartsWith path "/api/summary" then
    let r := read_settings st
    match r.1 with
    | .obj sf => some (sendJson (.obj (pyMerge MOCK_SUMMARY sf)) 200, r.2)
    | _ => none
  else
    some (serve_static pubDir fs path, st)

/-- do_OPTIONS, server.py lines 73-74: headers only, empty body. -/
def do_OPTIONS : Response :=
  ⟨200, "application/json", .text ""⟩

/-- An incoming HTTP request, as far as the handler inspects it. -/
inductive Request where
  | get (path : String) : Request
  | post (path : String) (contentLength : Nat) (parsedBody : Option JsonVal) : Request
  | options (path : String) : Request

/-- One request-response step of the server: dispatch on the method. -/
def handle (pubDir : List String) (fs : List String → Option String)
    (req : Request) (st : Option JsonVal) : Option (Response × Option JsonVal) :=
  match req with
  | .get p => do_GET pubDir fs p st
  | .post p cl body => do_POST st p cl body
  | .options _ => some (do_OPTIONS, st)

/-- The membership test answers `some true` exactly on the two enumeration
strings. -/
theorem typeAllowed_some_true_iff (o : Option JsonVal) :
    typeAllowed o = some true ↔
      o = some (.str "percent") ∨ o = some (.str "dollar") := by
  cases o with
  | none => simp [typeAllowed]
  | some j => cases j <;> simp [typeAllowed]

/-- The equality test holds exactly on the matching string value. -/
theorem isType_true_iff (t : String) (o : Option JsonVal) :
    isType t o = true ↔ o = some (.str t) := by
  cases o with
  | none => simp [isType]
  | some j => cases j <;> simp [isType]

/-- The outer route test of the settings handlers, evaluated. -/
theorem strStartsWith_settings_self :
    strStartsWith "/api/settings" "/api/settings" = true := rfl

/-- A float between 0 and 75 in both IEEE comparisons is a finite value in
[0, 75] (NaN and the infinities fail one of the two comparisons). -/
theorem pyLe_range_finite (v : PyFloat)
    (h1 : pyLe (.finite 0) v = true) (h2 : pyLe v (.finite 75) = true) :
    ∃ q : ℚ, v = .finite q ∧ 0 ≤ q ∧ q ≤ 75 := by
  cases v with
  | finite q =>
    refine ⟨q, rfl, ?_, ?_⟩
    · simpa [pyLe] using h1
    · simpa [pyLe] using h2
  | inf => simp [pyLe] at h2
  | neginf => simp [pyLe] at h1
  | nan => simp [pyLe] at h1

/-- A non-negative finite float does not compare below zero. -/
theorem pyLt_finite_zero_false (q : ℚ) (h : 0 ≤ q) :
    pyLt (.finite q) (.finite 0) = false := by
  simp [pyLt, not_lt.mpr h]

/-- C9: a POST to /api/settings with an empty body (Content-Length absent or
zero) substitutes the empty JSON object for the body, so it is answered with
the 400 contributionType error, never with the Invalid JSON error, and the
persisted settings are untouched. -/
theorem c9_empty_body_is_type_error (st : Option JsonVal) (pb : Option JsonVal) :
    do_POST st "/api/settings" 0 pb =
      some (sendJson
        (jsonError "contributionType must be \x27percent\x27 or \x27dollar\x27.") 400, st) ∧
    jsonError "contributionType must be \x27percent\x27 or \x27dollar\x27." ≠
      jsonError "Invalid JSON" := by
  refine ⟨rfl, ?_⟩
  intro h
  simp [jsonError] at h

set_option maxRecDepth 8000 in
/-- C10: Python float coercion accepts non-number JSON values: the numeric
string "5" and the boolean true are coerced to the floats 5.0 and 1.0
respectively and, being in range, persisted. -/
theorem c10_float_coercion (st : Option JsonVal) :
    do_POST st "/api/settings" 3
        (some (.obj [("contributionType", .str "percent"),
                     ("contributionValue", .str "5")])) =
      some (sendJson (settingsObj "percent" (.finite 5)) 201,
            some (settingsObj "percent" (.finite 5))) ∧
    do_POST st "/api/settings" 3
        (some (.obj [("contributionType", .str "percent"),
                     ("contributionValue", .bool true)])) =
      some (sendJson (settingsObj "percent" (.finite 1)) 201,
            some (settingsObj "percent" (.finite 1))) := by
  exact ⟨rfl, rfl⟩

/-- C4: whenever a POST answers 400, the persisted settings are unchanged, so
a subsequent GET of /api/settings returns what it returned before the failed
POST. -/
theorem c4_failed_post_preserves_settings (pubDir : List String)
    (fs : List String → Option String) (st : Option JsonVal) (path : String)
    (cl : Nat) (pb : Option JsonVal) (resp : Response) (st1 : Option JsonVal)
    (h : do_POST st path cl pb = some (resp, st1)) (h400 : resp.status = 400) :
    st1 = st ∧
    do_GET pubDir fs "/api/settings" st1 = do_GET pubDir fs "/api/settings" st := by
  have hst : st1 = st := by
    simp only [do_POST] at h
    split at h
    · split at h
      · simp only [Option.some.injEq, Prod.mk.injEq] at h
        exact h.2.symm
      · split at h
        · simp at h
        · simp only [Option.some.injEq, Prod.mk.injEq] at h
          exact h.2.symm
        · split at h
          · simp at h
          · simp only [Option.some.injEq, Prod.mk.injEq] at h
            exact h.2.symm
          · split at h
            · simp only [Option.some.injEq, Prod.mk.injEq] at h
              exact h.2.symm
            · split at h
              · simp only [Option.some.injEq, Prod.mk.injEq] at h
                exact h.2.symm
              · simp only [Option.some.injEq, Prod.mk.injEq] at h
                obtain ⟨hr, -⟩ := h
                rw [← hr] at h400
                simp [sendJson] at h400
      · exact absurd h (by simp)
    · simp only [Option.some.injEq, Prod.mk.injEq] at h
      obtain ⟨hr, -⟩ := h
      rw [← hr] at h400
      simp [sendJson] at h400
  exact ⟨hst, by rw [hst]⟩

/-- C7 counterexample: an unhashable (dict-valued) contributionType makes the
set-membership test raise an uncaught TypeError, so the request gets no 400
response at all. -/
theorem c7_order_counterexample :
    do_POST none "/api/settings" 5
        (some (.obj [("contributionType", .obj []), ("contributionValue", .int 5)])) =
      none := rfl

/-- C7 (amended): POST validation is ordered and short-circuits: an
unparseable body is answered 400 with exactly the Invalid JSON payload;
otherwise a hashable contributionType other than exactly percent or dollar
is answered 400 with the contributionType message, while an unhashable one
raises and the request gets no response; otherwise a contributionValue on
which float() raises TypeError or ValueError is answered 400 with the
numeric message, while an integer overflowing float() raises and gets no
response — each regardless of the later checks. -/
theorem c7_validation_order (st : Option JsonVal) (cl : Nat) (hcl : cl ≠ 0) :
    (do_POST st "/api/settings" cl none =
      some (sendJson (jsonError "Invalid JSON") 400, st)) ∧
    (∀ fields, typeAllowed (lookupField fields "contributionType") = some false →
      do_POST st "/api/settings" cl (some (.obj fields)) =
        some (sendJson
          (jsonError "contributionType must be \x27percent\x27 or \x27dollar\x27.") 400, st)) ∧
    (∀ fields, typeAllowed (lookupField fields "contributionType") = none →
      do_POST st "/api/settings" cl (some (.obj fields)) = none) ∧
    (∀ fields, typeAllowed (lookupField fields "contributionType") = some true →
      pyFloatOf (lookupField fields "contributionValue") = .valueError →
      do_POST st "/api/settings" cl (some (.obj fields)) =
        some (sendJson (jsonError "contributionValue must be numeric.") 400, st)) ∧
    (∀ fields, typeAllowed (lookupField fields "contributionType") = some true →
      pyFloatOf (lookupField fields "contributionValue") = .overflowError →
      do_POST st "/api/settings" cl (some (.obj fields)) = none) := by
  refine ⟨?_, ?_, ?_, ?_, ?_⟩
  · simp [do_POST, strStartsWith_settings_self, hcl]
  · intro fields hta
    simp [do_POST, strStartsWith_settings_self, hcl, hta]
  · intro fields hta
    simp [do_POST, strStartsWith_settings_self, hcl, hta]
  · intro fields hta hfv
    simp [do_POST, strStartsWith_settings_self, hcl, hta, hfv]
  · intro fields hta hfv
    simp [do_POST, strStartsWith_settings_self, hcl, hta, hfv]

set_option maxRecDepth 8000 in
/-- C1 counterexample: the round trip is not exact for every valid dollar
value: posting the integer 2^60 + 1 (non-negative, so valid per the claim)
answers 201 but persists the rounded float 2^60, and the subsequent GET
returns the rounded object, not the posted one. -/
theorem c1_roundtrip_counterexample :
    do_POST none "/api/settings" 5
        (some (.obj [("contributionType", .str "dollar"),
                     ("contributionValue", .int 1152921504606846977)])) =
      some (sendJson (settingsObj "dollar" (.finite 1152921504606846976)) 201,
            some (settingsObj "dollar" (.finite 1152921504606846976))) ∧
    do_GET ["pub"] (fun _ => none) "/api/settings"
        (some (settingsObj "dollar" (.finite 1152921504606846976))) =
      some (sendJson (settingsObj "dollar" (.finite 1152921504606846976)) 200,
            some (settingsObj "dollar" (.finite 1152921504606846976))) ∧
    (1152921504606846976 : ℚ) ≠ (1152921504606846977 : ℚ) :=
  ⟨rfl, rfl, by decide⟩

/-- C1 (amended): for every settings body whose contributionValue is a
float, float() is the identity, so a valid body (percent with value in
[0,75], or dollar with a non-negative value) is persisted as exactly the
two-field settings object, POST answers 201 with it, and a subsequent GET
of /api/settings returns exactly the same object; any extra body fields are
discarded.  (Integer values are first rounded to binary64; huge ones make
float() raise, hence the restriction to floats.) -/
theorem c1_post_get_roundtrip (pubDir : List String)
    (fs : List String → Option String) (st : Option JsonVal)
    (fields : List (String × JsonVal)) (ct : String) (v : ℚ) (cl : Nat)
    (hcl : cl ≠ 0)
    (hct : lookupField fields "contributionType" = some (.str ct))
    (hcv : lookupField fields "contributionValue" = some (.float (.finite v)))
    (hvalid : (ct = "percent" ∧ 0 ≤ v ∧ v ≤ 75) ∨ (ct = "dollar" ∧ 0 ≤ v)) :
    do_POST st "/api/settings" cl (some (.obj fields)) =
      some (sendJson (settingsObj ct (.finite v)) 201,
            some (settingsObj ct (.finite v))) ∧
    do_GET pubDir fs "/api/settings" (some (settingsObj ct (.finite v))) =
      some (sendJson (settingsObj ct (.finite v)) 200,
            some (settingsObj ct (.finite v))) := by
  constructor
  · rcases hvalid with ⟨hceq, h0, h75⟩ | ⟨hceq, h0⟩
    · subst hceq
      simp [do_POST, strStartsWith_settings_self, hcl, hct, hcv, typeAllowed,
        pyFloatOf, pyFloat, isType, pyLe, pyLt, settingsObj, write_settings,
        h0, h75]
    · subst hceq
      simp [do_POST, strStartsWith_settings_self, hcl, hct, hcv, typeAllowed,
        pyFloatOf, pyFloat, isType, pyLe, pyLt, settingsObj, write_settings,
        not_lt.mpr h0]
  · rfl

set_option maxRecDepth 8000 in
/-- C2 counterexample: a dollar body with contributionValue "nan" converts
to NaN, the rejection test NaN < 0 is false, and the server answers 201 and
persists NaN — although NaN is not a non-negative number (0 <= NaN is
false). -/
theorem c2_acceptance_counterexample :
    do_POST none "/api/settings" 5
        (some (.obj [("contributionType", .str "dollar"),
                     ("contributionValue", .str "nan")])) =
      some (sendJson (settingsObj "dollar" .nan) 201,
            some (settingsObj "dollar" .nan)) ∧
    pyLe (.finite 0) .nan = false :=
  ⟨rfl, rfl⟩

/-- C2 (amended): on a JSON-object body posted to /api/settings that gets a
response, the status is 201 or 400, and it is 201 exactly when float()
yields a value that passes the IEEE check for the given type: for percent,
0 <= v and v <= 75 (excluding NaN and the infinities); for dollar, v < 0
false (admitting NaN and +inf).  Unhashable contributionType values and
ints overflowing float() raise instead and get no response. -/
theorem c2_post_acceptance (st : Option JsonVal)
    (fields : List (String × JsonVal)) (cl : Nat) (resp : Response)
    (st1 : Option JsonVal) (hcl : cl ≠ 0)
    (h : do_POST st "/api/settings" cl (some (.obj fields)) = some (resp, st1)) :
    (resp.status = 201 ∨ resp.status = 400) ∧
    (resp.status = 201 ↔
      ∃ v, pyFloatOf (lookupField fields "contributionValue") = .ok v ∧
        ((lookupField fields "contributionType" = some (.str "percent") ∧
            pyLe (.finite 0) v = true ∧ pyLe v (.finite 75) = true) ∨
         (lookupField fields "contributionType" = some (.str "dollar") ∧
            pyLt v (.finite 0) = false))) := by
  simp only [do_POST, strStartsWith_settings_self, if_true, if_neg hcl] at h
  cases hta : typeAllowed (lookupField fields "contributionType") with
  | none =>
    rw [hta] at h
    simp at h
  | some b =>
    cases b with
    | false =>
      rw [hta] at h
      simp only [Option.some.injEq, Prod.mk.injEq] at h
      obtain ⟨hr, -⟩ := h
      subst hr
      refine ⟨Or.inr rfl, ?_⟩
      constructor
      · intro h201
        exact absurd h201 (by simp [sendJson])
      · rintro ⟨v, -, ⟨hcteq, -⟩ | ⟨hcteq, -⟩⟩ <;>
          { have hcontra : typeAllowed (lookupField fields "contributionType") =
                some true := by
              rw [typeAllowed_some_true_iff]
              tauto
            rw [hta] at hcontra
            simp at hcontra }
    | true =>
      rw [hta] at h
      cases hfv : pyFloatOf (lookupField fields "contributionValue") with
      | overflowError =>
        rw [hfv] at h
        simp at h
      | valueError =>
        rw [hfv] at h
        simp only [Option.some.injEq, Prod.mk.injEq] at h
        obtain ⟨hr, -⟩ := h
        subst hr
        refine ⟨Or.inr rfl, ?_⟩
        constructor
        · intro h201
          exact absurd h201 (by simp [sendJson])
        · rintro ⟨v, hv, -⟩
          simp at hv
      | ok v =>
        simp only [hfv] at h
        rcases (typeAllowed_some_true_iff _).mp hta with hcteq | hcteq
        · simp only [hcteq] at h
          by_cases hrange : pyLe (.finite 0) v = true ∧ pyLe v (.finite 75) = true
          · have hc1 : ¬ (isType "percent" (some (JsonVal.str "percent")) = true ∧
                ¬ (pyLe (.finite 0) v = true ∧ pyLe v (.finite 75) = true)) :=
              fun hc => hc.2 hrange
            rw [if_neg hc1] at h
            have hc2 : ¬ (isType "dollar" (some (JsonVal.str "percent")) = true ∧
                pyLt v (.finite 0) = true) :=
              fun hc => by simp [isType] at hc
            rw [if_neg hc2] at h
            simp only [Option.some.injEq, Prod.mk.injEq] at h
            obtain ⟨hr, -⟩ := h
            subst hr
            exact ⟨Or.inl rfl,
              ⟨fun _ => ⟨v, rfl, Or.inl ⟨hcteq, hrange.1, hrange.2⟩⟩, fun _ => rfl⟩⟩
          · have hc1 : (isType "percent" (some (JsonVal.str "percent")) = true ∧
                ¬ (pyLe (.finite 0) v = true ∧ pyLe v (.finite 75) = true)) :=
              ⟨rfl, hrange⟩
            rw [if_pos hc1] at h
            simp only [Option.some.injEq, Prod.mk.injEq] at h
            obtain ⟨hr, -⟩ := h
            subst hr
            refine ⟨Or.inr rfl, ?_⟩
            constructor
            · intro h201
              exact absurd h201 (by simp [sendJson])
            · rintro ⟨v2, hv2, ⟨-, hle1, hle2⟩ | ⟨hcteq2, -⟩⟩
              · simp only [FloatResult.ok.injEq] at hv2
                subst hv2
                exact absurd ⟨hle1, hle2⟩ hrange
              · rw [hcteq] at hcteq2
                simp at hcteq2
        · simp only [hcteq] at h
          have hc1 : ¬ (isType "percent" (some (JsonVal.str "dollar")) = true ∧
              ¬ (pyLe (.finite 0) v = true ∧ pyLe v (.finite 75) = true)) :=
            fun hc => by simp [isType] at hc
          rw [if_neg hc1] at h
          by_cases hneg : pyLt v (.finite 0) = true
          · rw [if_pos ⟨rfl, hneg⟩] at h
            simp only [Option.some.injEq, Prod.mk.injEq] at h
            obtain ⟨hr, -⟩ := h
            subst hr
            refine ⟨Or.inr rfl, ?_⟩
            constructor
            · intro h201
              exact absurd h201 (by simp [sendJson])
            · rintro ⟨v2, hv2, ⟨hcteq2, -⟩ | ⟨-, hltf⟩⟩
              · rw [hcteq] at hcteq2
                simp at hcteq2
              · simp only [FloatResult.ok.injEq] at hv2
                subst hv2
                rw [hneg] at hltf
                exact absurd hltf (by decide)
          · rw [if_neg (fun hc => hneg hc.2)] at h
            simp only [Option.some.injEq, Prod.mk.injEq] at h
            obtain ⟨hr, -⟩ := h
            subst hr
            exact ⟨Or.inl rfl,
              ⟨fun _ => ⟨v, rfl, Or.inr ⟨hcteq, Bool.eq_false_iff.mpr hneg⟩⟩,
               fun _ => rfl⟩⟩

/-- C8: a POST that succeeded (status 201) is idempotent: repeating the same
request in the state it produced yields the same response and leaves the
same persisted state. -/
theorem c8_valid_post_idempotent (st : Option JsonVal) (path : String)
    (cl : Nat) (pb : Option JsonVal) (resp : Response) (st1 : Option JsonVal)
    (h : do_POST st path cl pb = some (resp, st1)) (h201 : resp.status = 201) :
    do_POST st1 path cl pb = some (resp, st1) := by
  simp only [do_POST] at h ⊢
  split at h
  case isTrue hpath =>
    rw [if_pos hpath]
    split at h
    case h_1 heq =>
      exfalso
      simp only [Option.some.injEq, Prod.mk.injEq] at h
      obtain ⟨hr, -⟩ := h
      rw [← hr] at h201
      simp [sendJson] at h201
    case h_2 fields heq =>
      split at h
      case h_1 hta =>
        simp at h
      case h_2 hta =>
        exfalso
        simp only [Option.some.injEq, Prod.mk.injEq] at h
        obtain ⟨hr, -⟩ := h
        rw [← hr] at h201
        simp [sendJson] at h201
      case h_3 hta =>
        split at h
        case h_1 hfv =>
          simp at h
        case h_2 hfv =>
          exfalso
          simp only [Option.some.injEq, Prod.mk.injEq] at h
          obtain ⟨hr, -⟩ := h
          rw [← hr] at h201
          simp [sendJson] at h201
        case h_3 v hfv =>
          split at h
          case isTrue hp =>
            exfalso
            simp only [Option.some.injEq, Prod.mk.injEq] at h
            obtain ⟨hr, -⟩ := h
            rw [← hr] at h201
            simp [sendJson] at h201
          case isFalse hp =>
            split at h
            case isTrue hd =>
              exfalso
              simp only [Option.some.injEq, Prod.mk.injEq] at h
              obtain ⟨hr, -⟩ := h
              rw [← hr] at h201
              simp [sendJson] at h201
            case isFalse hd =>
              simp only [Option.some.injEq, Prod.mk.injEq] at h
              obtain ⟨hr, hs⟩ := h
              simp only [if_neg hp, if_neg hd]
              rw [hr, hs]
    case h_3 j heq hne =>
      simp at h
  case isFalse hpath =>
    exfalso
    simp only [Option.some.injEq, Prod.mk.injEq] at h
    obtain ⟨hr, -⟩ := h
    rw [← hr] at h201
    simp [sendJson] at h201

/-- A settings document a successfully validated write can produce: exactly
the two fields; for type percent the value is a finite float in [0, 75],
for type dollar it is any float not comparing below zero (so NaN and +inf
are admitted). -/
def goodSettings (j : JsonVal) : Prop :=
  ∃ ct v, j = settingsObj ct v ∧
    ((ct = "percent" ∧ ∃ q : ℚ, v = .finite q ∧ 0 ≤ q ∧ q ≤ 75) ∨
     (ct = "dollar" ∧ pyLt v (.finite 0) = false))

/-- The persisted-state invariant: the data file exists and holds either the
default settings or a successfully validated write. -/
def SettingsInv (st : Option JsonVal) : Prop :=
  ∃ j, st = some j ∧ (j = DEFAULT_SETTINGS ∨ goodSettings j)

/-- Every handled request preserves the persisted-state invariant. -/
theorem handle_preserves_inv (pubDir : List String)
    (fs : List String → Option String) (req : Request) (st : Option JsonVal)
    (resp : Response) (st1 : Option JsonVal)
    (hInv : SettingsInv st) (h : handle pubDir fs req st = some (resp, st1)) :
    SettingsInv st1 := by
  obtain ⟨j, hj, hgood⟩ := hInv
  subst hj
  cases req with
  | options p =>
    simp only [handle, Option.some.injEq, Prod.mk.injEq] at h
    exact h.2 ▸ ⟨j, rfl, hgood⟩
  | get p =>
    simp only [handle, do_GET, read_settings, ensure_data_file, Option.getD_some] at h
    split at h
    · simp only [Option.some.injEq, Prod.mk.injEq] at h
      exact h.2 ▸ ⟨j, rfl, hgood⟩
    · split at h
      · split at h
        · simp only [Option.some.injEq, Prod.mk.injEq] at h
          exact h.2 ▸ ⟨_, rfl, hgood⟩
        · simp at h
      · simp only [Option.some.injEq, Prod.mk.injEq] at h
        exact h.2 ▸ ⟨j, rfl, hgood⟩
  | post p cl pb =>
    simp only [handle, do_POST] at h
    split at h
    case isTrue hpath =>
      split at h
      case h_1 heq =>
        simp only [Option.some.injEq, Prod.mk.injEq] at h
        exact h.2 ▸ ⟨j, rfl, hgood⟩
      case h_2 fields heq =>
        split at h
        case h_1 hta =>
          simp at h
        case h_2 hta =>
          simp only [Option.some.injEq, Prod.mk.injEq] at h
          exact h.2 ▸ ⟨j, rfl, hgood⟩
        case h_3 hta =>
          split at h
          case h_1 hfv =>
            simp at h
          case h_2 hfv =>
            simp only [Option.some.injEq, Prod.mk.injEq] at h
            exact h.2 ▸ ⟨j, rfl, hgood⟩
          case h_3 v hfv =>
            split at h
            case isTrue hp =>
              simp only [Option.some.injEq, Prod.mk.injEq] at h
              exact h.2 ▸ ⟨j, rfl, hgood⟩
            case isFalse hp =>
              split at h
              case isTrue hd =>
                simp only [Option.some.injEq, Prod.mk.injEq] at h
                exact h.2 ▸ ⟨j, rfl, hgood⟩
              case isFalse hd =>
                simp only [Option.some.injEq, Prod.mk.injEq] at h
                rw [← h.2]
                rcases (typeAllowed_some_true_iff _).mp hta with hct | hct
                · have hip : isType "percent" (lookupField fields "contributionType") = true := by
                    rw [hct]
                    rfl
                  have hrange : pyLe (.finite 0) v = true ∧ pyLe v (.finite 75) = true := by
                    by_contra hr
                    exact hp ⟨hip, hr⟩
                  obtain ⟨q, hq, h0, h75⟩ := pyLe_range_finite v hrange.1 hrange.2
                  rw [hct]
                  exact ⟨_, rfl, Or.inr ⟨"percent", v, rfl, Or.inl ⟨rfl, q, hq, h0, h75⟩⟩⟩
                · have hid : isType "dollar" (lookupField fields "contributionType") = true := by
                    rw [hct]
                    rfl
                  have hlt : pyLt v (.finite 0) = false :=
                    Bool.eq_false_iff.mpr (fun hvt => hd ⟨hid, hvt⟩)
                  rw [hct]
                  exact ⟨_, rfl, Or.inr ⟨"dollar", v, rfl, Or.inr ⟨rfl, hlt⟩⟩⟩
      case h_3 x heq hne =>
        simp at h
    case isFalse hpath =>
      simp only [Option.some.injEq, Prod.mk.injEq] at h
      exact h.2 ▸ ⟨j, rfl, hgood⟩

/-- Under the invariant, the persisted document always has the two-field
settings shape, an enumeration contributionType, a contributionValue that
never compares below zero, and a finite value in [0, 75] when the type is
percent. -/
theorem inv_ranges (st : Option JsonVal) (hInv : SettingsInv st) :
    ∀ j, st = some j → ∃ ct v, j = settingsObj ct v ∧
      (ct = "percent" ∨ ct = "dollar") ∧ pyLt v (.finite 0) = false ∧
      (ct = "percent" → ∃ q : ℚ, v = .finite q ∧ 0 ≤ q ∧ q ≤ 75) := by
  obtain ⟨j0, hj0, hg⟩ := hInv
  intro j hj
  rw [hj0] at hj
  injection hj with hj
  subst hj
  rcases hg with hdef | ⟨ct, v, hobj, hcase⟩
  · exact ⟨"percent", .finite 7, by rw [hdef]; rfl, Or.inl rfl, by decide,
      fun _ => ⟨7, rfl, by norm_num, by norm_num⟩⟩
  · rcases hcase with ⟨hc, q, hq, h0, h75⟩ | ⟨hc, hlt⟩
    · refine ⟨ct, v, hobj, Or.inl hc, ?_, fun _ => ⟨q, hq, h0, h75⟩⟩
      rw [hq]
      exact pyLt_finite_zero_false q h0
    · refine ⟨ct, v, hobj, Or.inr hc, hlt, fun hcp => ?_⟩
      rw [hc] at hcp
      exact absurd hcp (by decide)

/-- C3 counterexample: from the default state, posting dollar with the
string "nan" is accepted (NaN < 0 is false) and persists a NaN
contributionValue, which is not a non-negative number. -/
theorem c3_invariant_counterexample :
    handle ["pub"] (fun _ => none)
        (.post "/api/settings" 5
          (some (.obj [("contributionType", .str "dollar"),
                       ("contributionValue", .str "nan")])))
        (some DEFAULT_SETTINGS) =
      some (sendJson (settingsObj "dollar" .nan) 201,
            some (settingsObj "dollar" .nan)) ∧
    pyLe (.finite 0) .nan = false ∧
    (∀ q : ℚ, PyFloat.nan ≠ .finite q) :=
  ⟨rfl, rfl, fun _ h => PyFloat.noConfusion h⟩

/-- C3 (amended): after any handled request in an invariant state, the
persisted document is still either the default settings or the last
successfully validated write, hence always has contributionType percent or
dollar and a contributionValue that never compares below zero; when the
type is percent the value is a finite float in [0, 75], while a dollar
write may carry NaN or +inf. -/
theorem c3_persisted_settings_invariant (pubDir : List String)
    (fs : List String → Option String) (req : Request) (st : Option JsonVal)
    (resp : Response) (st1 : Option JsonVal)
    (hInv : SettingsInv st) (h : handle pubDir fs req st = some (resp, st1)) :
    SettingsInv st1 ∧
    ∀ j, st1 = some j → ∃ ct v, j = settingsObj ct v ∧
      (ct = "percent" ∨ ct = "dollar") ∧ pyLt v (.finite 0) = false ∧
      (ct = "percent" → ∃ q : ℚ, v = .finite q ∧ 0 ≤ q ∧ q ≤ 75) := by
  have h1 := handle_preserves_inv pubDir fs req st resp st1 hInv h
  exact ⟨h1, inv_ranges st1 h1⟩

/-- C5: a GET outside the API whose path resolves (after lexical resolution
of dot-dot against the static root) to a location not contained within the
static root is answered 403 Forbidden with the fixed text body, returning no
file contents; a path resolving inside the root where no file exists is
answered 404. -/
theorem c5_traversal_forbidden (pubDir : List String)
    (fs : List String → Option String) (p : String) (st : Option JsonVal)
    (h1 : strStartsWith p "/api/settings" = false)
    (h2 : strStartsWith p "/api/summary" = false) :
    (pubDir.isPrefixOf (resolvedPath pubDir p) = false →
      do_GET pubDir fs p st =
        some (⟨403, "application/json", .text "Forbidden"⟩, st)) ∧
    (pubDir.isPrefixOf (resolvedPath pubDir p) = true →
      fs (resolvedPath pubDir p) = none →
      do_GET pubDir fs p st =
        some (⟨404, "text/plain", .text "Not found"⟩, st)) := by
  constructor
  · intro hpre
    simp [do_GET, serve_static, h1, h2, hpre]
  · intro hpre hfs
    simp [do_GET, serve_static, h1, h2, hpre, hfs]

/-- The summary payload for a persisted settings document with the given
type and value. -/
def summaryPayload (ct : String) (v : PyFloat) : List (String × JsonVal) :=
  pyMerge MOCK_SUMMARY
    [("contributionType", .str ct), ("contributionValue", .float v)]

/-- C6: on a persisted settings document of the server-written shape, GET
/api/summary answers 200 with the mock summary merged with the settings:
every mock field is present with its mock value, the current
contributionType and contributionValue are present, and every settings field
wins over any colliding mock field because it is merged last. -/
theorem c6_summary_fields (pubDir : List String)
    (fs : List String → Option String) (st : Option JsonVal) (resp : Response)
    (st1 : Option JsonVal) (ct : String) (v : PyFloat)
    (hst : st = some (settingsObj ct v))
    (h : do_GET pubDir fs "/api/summary" st = some (resp, st1)) :
    resp.status = 200 ∧
    resp.body = .json (.obj (summaryPayload ct v)) ∧
    lookupField (summaryPayload ct v) "employeeName" = some (.str "Alex Johnson") ∧
    lookupField (summaryPayload ct v) "planType" = some (.str "Traditional 401(k)") ∧
    lookupField (summaryPayload ct v) "annualSalary" = some (.int 95000) ∧
    lookupField (summaryPayload ct v) "payFrequency" = some (.int 24) ∧
    lookupField (summaryPayload ct v) "ytdContribution" = some (.int 4100) ∧
    lookupField (summaryPayload ct v) "ytdEmployerMatch" = some (.int 1640) ∧
    lookupField (summaryPayload ct v) "companyMatchPercent" =
      some (.float (.finite 4)) ∧
    lookupField (summaryPayload ct v) "age" = some (.int 30) ∧
    lookupField (summaryPayload ct v) "retirementAge" = some (.int 65) ∧
    lookupField (summaryPayload ct v) "estimatedBalanceAtRetirement" =
      some (.int 685000) ∧
    lookupField (summaryPayload ct v) "contributionType" = some (.str ct) ∧
    lookupField (summaryPayload ct v) "contributionValue" = some (.float v) ∧
    (∀ k x,
      lookupField [("contributionType", .str ct), ("contributionValue", .float v)]
        k = some x →
      lookupField (summaryPayload ct v) k = some x) := by
  subst hst
  have hred : do_GET pubDir fs "/api/summary" (some (settingsObj ct v)) =
      some (sendJson (.obj (summaryPayload ct v)) 200, some (settingsObj ct v)) := rfl
  rw [hred] at h
  simp only [Option.some.injEq, Prod.mk.injEq] at h
  obtain ⟨hr, -⟩ := h
  subst hr
  refine ⟨rfl, rfl, rfl, rfl, rfl, rfl, rfl, rfl, rfl, rfl, rfl, rfl, rfl, rfl, ?_⟩
  intro k x hk
  by_cases hk1 : "contributionType" = k
  · subst hk1
    simp only [lookupField, if_pos rfl, Option.some.injEq] at hk
    rw [← hk]
    rfl
  · by_cases hk2 : "contributionValue" = k
    · subst hk2
      have hne : ¬("contributionType" = "contributionValue") := by decide
      simp only [lookupField, if_neg hne, if_pos rfl, Option.some.injEq] at hk
      rw [← hk]
      rfl
    · simp only [lookupField, if_neg hk1, if_neg hk2] at hk
      exact Option.noConfusion hk

/-- Witness for C1 at a concrete valid percent body carrying an extra field. -/
theorem c1_witness :
    do_POST none "/api/settings" 5
        (some (.obj [("contributionType", .str "percent"),
                     ("contributionValue", .float (.finite 10)),
                     ("extra", .bool true)])) =
      some (sendJson (settingsObj "percent" (.finite 10)) 201,
            some (settingsObj "percent" (.finite 10))) ∧
    do_GET ["pub"] (fun _ => none) "/api/settings"
        (some (settingsObj "percent" (.finite 10))) =
      some (sendJson (settingsObj "percent" (.finite 10)) 200,
            some (settingsObj "percent" (.finite 10))) :=
  c1_post_get_roundtrip ["pub"] (fun _ => none) none
    [("contributionType", .str "percent"), ("contributionValue", .float (.finite 10)),
     ("extra", .bool true)] "percent" 10 5
    (by norm_num) rfl rfl (Or.inl ⟨rfl, by norm_num, by norm_num⟩)

set_option maxRecDepth 8000 in
/-- Witness for C2 at the out-of-range percent body with integer value 80. -/
theorem c2_witness :
    ((sendJson (jsonError "Percent contributions must be between 0 and 75.") 400).status = 201 ∨
     (sendJson (jsonError "Percent contributions must be between 0 and 75.") 400).status = 400) ∧
    ((sendJson (jsonError "Percent contributions must be between 0 and 75.") 400).status = 201 ↔
      ∃ v,
        pyFloatOf (lookupField [("contributionType", JsonVal.str "percent"),
            ("contributionValue", JsonVal.int 80)] "contributionValue") = .ok v ∧
        ((lookupField [("contributionType", JsonVal.str "percent"),
              ("contributionValue", JsonVal.int 80)] "contributionType" =
            some (.str "percent") ∧
            pyLe (.finite 0) v = true ∧ pyLe v (.finite 75) = true) ∨
         (lookupField [("contributionType", JsonVal.str "percent"),
              ("contributionValue", JsonVal.int 80)] "contributionType" =
            some (.str "dollar") ∧ pyLt v (.finite 0) = false))) :=
  c2_post_acceptance none
    [("contributionType", .str "percent"), ("contributionValue", .int 80)] 2
    (sendJson (jsonError "Percent contributions must be between 0 and 75.") 400)
    none (by norm_num) rfl

/-- Witness for C3 in the startup state, on a settings GET. -/
theorem c3_witness :
    SettingsInv (some DEFAULT_SETTINGS) ∧
    ∀ j, some DEFAULT_SETTINGS = some j → ∃ ct v, j = settingsObj ct v ∧
      (ct = "percent" ∨ ct = "dollar") ∧ pyLt v (.finite 0) = false ∧
      (ct = "percent" → ∃ q : ℚ, v = .finite q ∧ 0 ≤ q ∧ q ≤ 75) :=
  c3_persisted_settings_invariant ["pub"] (fun _ => none) (.get "/api/settings")
    (some DEFAULT_SETTINGS) (sendJson DEFAULT_SETTINGS 200) (some DEFAULT_SETTINGS)
    ⟨DEFAULT_SETTINGS, rfl, Or.inl rfl⟩ rfl

set_option maxRecDepth 8000 in
/-- Witness for C4: the failed POST of percent 80 leaves the default settings
in place. -/
theorem c4_witness :
    some DEFAULT_SETTINGS = some DEFAULT_SETTINGS ∧
    do_GET ["pub"] (fun _ => none) "/api/settings" (some DEFAULT_SETTINGS) =
      do_GET ["pub"] (fun _ => none) "/api/settings" (some DEFAULT_SETTINGS) :=
  c4_failed_post_preserves_settings ["pub"] (fun _ => none) (some DEFAULT_SETTINGS)
    "/api/settings" 2
    (some (.obj [("contributionType", .str "percent"), ("contributionValue", .int 80)]))
    (sendJson (jsonError "Percent contributions must be between 0 and 75.") 400)
    (some DEFAULT_SETTINGS) rfl rfl

/-- Witness for C5: a dot-dot path escaping the static root is answered 403,
and an in-root path with no file is answered 404. -/
theorem c5_witness :
    (do_GET ["home", "public"] (fun _ => none) "/../etc/passwd" none =
      some (⟨403, "application/json", .text "Forbidden"⟩, none)) ∧
    (do_GET ["home", "public"] (fun _ => none) "/missing.html" none =
      some (⟨404, "text/plain", .text "Not found"⟩, none)) :=
  ⟨(c5_traversal_forbidden ["home", "public"] (fun _ => none) "/../etc/passwd"
      none rfl rfl).1 rfl,
   (c5_traversal_forbidden ["home", "public"] (fun _ => none) "/missing.html"
      none rfl rfl).2 rfl rfl⟩

/-- Witness for C6 on the persisted settings dollar 3.0. -/
theorem c6_witness :
    (sendJson (.obj (summaryPayload "dollar" (.finite 3))) 200).status = 200 ∧
    (sendJson (.obj (summaryPayload "dollar" (.finite 3))) 200).body =
      .json (.obj (summaryPayload "dollar" (.finite 3))) ∧
    lookupField (summaryPayload "dollar" (.finite 3)) "employeeName" =
      some (.str "Alex Johnson") ∧
    lookupField (summaryPayload "dollar" (.finite 3)) "planType" =
      some (.str "Traditional 401(k)") ∧
    lookupField (summaryPayload "dollar" (.finite 3)) "annualSalary" =
      some (.int 95000) ∧
    lookupField (summaryPayload "dollar" (.finite 3)) "payFrequency" =
      some (.int 24) ∧
    lookupField (summaryPayload "dollar" (.finite 3)) "ytdContribution" =
      some (.int 4100) ∧
    lookupField (summaryPayload "dollar" (.finite 3)) "ytdEmployerMatch" =
      some (.int 1640) ∧
    lookupField (summaryPayload "dollar" (.finite 3)) "companyMatchPercent" =
      some (.float (.finite 4)) ∧
    lookupField (summaryPayload "dollar" (.finite 3)) "age" = some (.int 30) ∧
    lookupField (summaryPayload "dollar" (.finite 3)) "retirementAge" =
      some (.int 65) ∧
    lookupField (summaryPayload "dollar" (.finite 3)) "estimatedBalanceAtRetirement" =
      some (.int 685000) ∧
    lookupField (summaryPayload "dollar" (.finite 3)) "contributionType" =
      some (.str "dollar") ∧
    lookupField (summaryPayload "dollar" (.finite 3)) "contributionValue" =
      some (.float (.finite 3)) ∧
    (∀ k x,
      lookupField [("contributionType", .str "dollar"),
        ("contributionValue", .float (.finite 3))] k = some x →
      lookupField (summaryPayload "dollar" (.finite 3)) k = some x) :=
  c6_summary_fields ["pub"] (fun _ => none) (some (settingsObj "dollar" (.finite 3)))
    (sendJson (.obj (summaryPayload "dollar" (.finite 3))) 200)
    (some (settingsObj "dollar" (.finite 3))) "dollar" (.finite 3) rfl rfl

set_option maxRecDepth 8000 in
/-- Witness for C7 at concrete malformed bodies: no body JSON, a lump_sum
type, a dict-valued type (crash), a null contributionValue, and an integer
too large for float() (crash). -/
theorem c7_witness :
    do_POST none "/api/settings" 7 none =
      some (sendJson (jsonError "Invalid JSON") 400, none) ∧
    do_POST none "/api/settings" 7
        (some (.obj [("contributionType", .str "lump_sum")])) =
      some (sendJson
        (jsonError "contributionType must be \x27percent\x27 or \x27dollar\x27.") 400, none) ∧
    do_POST none "/api/settings" 7
        (some (.obj [("contributionType", .obj [])])) = none ∧
    do_POST none "/api/settings" 7
        (some (.obj [("contributionType", .str "dollar"),
                     ("contributionValue", .null)])) =
      some (sendJson (jsonError "contributionValue must be numeric.") 400, none) ∧
    do_POST none "/api/settings" 7
        (some (.obj [("contributionType", .str "dollar"),
                     ("contributionValue", .int 1000000000000000000000000000000000000000000000000000000000000000000000000000000000000000000000000000000000000000000000000000000000000000000000000000000000000000000000000000000000000000000000000000000000000000000000000000000000000000000000000000000000000000000000000000000000000000000000000000000000000000000000)])) =
      none := by
  obtain ⟨ha, hb, hc, hd, he⟩ := c7_validation_order none 7 (by norm_num)
  refine ⟨ha, hb _ rfl, hc _ rfl, hd _ rfl rfl, he _ rfl (by decide)⟩

/-- Witness for C8: repeating the valid dollar 2.0 POST from the state it
created returns the same response and state. -/
theorem c8_witness :
    do_POST (some (settingsObj "dollar" (.finite 2))) "/api/settings" 9
        (some (.obj [("contributionType", .str "dollar"),
                     ("contributionValue", .float (.finite 2))])) =
      some (sendJson (settingsObj "dollar" (.finite 2)) 201,
            some (settingsObj "dollar" (.finite 2))) :=
  c8_valid_post_idempotent none "/api/settings" 9
    (some (.obj [("contributionType", .str "dollar"),
                 ("contributionValue", .float (.finite 2))]))
    (sendJson (settingsObj "dollar" (.finite 2)) 201)
    (some (settingsObj "dollar" (.finite 2))) rfl rfl
